import Mathlib

/-!
Verification development for the SAEM engine in src/saem.cpp.

The embedding models doubles as exact rationals.  Calls into external
numeric libraries that are not part of this translation unit, namely
log, sqrt, pow from libm and the power/Box-Cox transform pair
_powerD/_powerDi from the rxode2 headers, are modelled as fields of an
explicit record of function parameters, so every definition stays
executable and the control and data flow of the C++ is preserved
exactly.  NaN handling of doubles is modelled explicitly where a claim
depends on it.
-/

namespace Saem

/-- Record of the external numeric routines used by saem.cpp: libm log,
sqrt and pow, and the rxode2 transform pair _powerD and _powerDi.  The
engine only composes them, so the embedding is parametric in them. -/
structure Ext where
  log : ℚ → ℚ
  sqrt : ℚ → ℚ
  rpow : ℚ → ℚ → ℚ
  powerD : ℚ → ℚ → ℤ → ℚ → ℚ → ℚ
  powerDi : ℚ → ℚ → ℤ → ℚ → ℚ → ℚ

/-- The hard coded lower clip bound 1.0e-200 used throughout saem.cpp. -/
def xlo : ℚ := 1 / 10 ^ 200

/-- The hard coded upper clip bound 1e300 used throughout saem.cpp. -/
def xup : ℚ := 10 ^ 300

/-- Translation of handleF in saem.cpp lines 70-81: select the
transformed or raw prediction by propT, optionally replace an exact
zero by one, optionally truncate into the clip interval. -/
def handleF (powt : ℤ) (ft f : ℚ) (trunc adjustF : Bool) : ℚ :=
  let fa := if powt ≠ 0 then ft else f
  let fa := if adjustF ∧ fa = 0 then 1 else fa
  if trunc then
    if fa < xlo then xlo else if fa > xup then xup else fa
  else fa

/-- Translation of the residual-scale clipping used in the objective
functions: first the lower bound is enforced, then the upper bound. -/
def clipG (g : ℚ) : ℚ :=
  let g1 := if g < xlo then xlo else g
  if g1 > xup then xup else g1

/-- The toLambda macro in saem.cpp line 83: map the unconstrained
optimizer coordinate back to the lambda domain via _powerDi. -/
def toLambda (E : Ext) (lambdaR x : ℚ) : ℚ :=
  E.powerDi x 1 4 (-lambdaR) lambdaR

/-- The toLambdaEst macro in saem.cpp line 84: clamp to 99 percent of
the lambda range, then map into optimizer coordinates via _powerD. -/
def toLambdaEst (E : Ext) (lambdaR x : ℚ) : ℚ :=
  E.powerD
    (if x < -(99 / 100) * lambdaR then -(99 / 100) * lambdaR
     else if x > (99 / 100) * lambdaR then (99 / 100) * lambdaR else x)
    1 4 (-lambdaR) lambdaR

/-- The toPow macro in saem.cpp line 86. -/
def toPow (E : Ext) (powR x : ℚ) : ℚ :=
  E.powerDi x 1 4 (-powR) powR

/-- The toPowEst macro in saem.cpp line 87. -/
def toPowEst (E : Ext) (powR x : ℚ) : ℚ :=
  E.powerD
    (if x < -(99 / 100) * powR then -(99 / 100) * powR
     else if x > (99 / 100) * powR then (99 / 100) * powR else x)
    1 4 (-powR) powR

/-- Rectangular rational matrix, indexed the Armadillo way. -/
abbrev Mat (m n : ℕ) := Fin m → Fin n → ℚ

/-- The Robbins-Monro recursion the spec describes: move the running
statistic toward the new average by the step size. -/
def rmUpdate (step old avg : ℚ) : ℚ := old + step * (avg - old)

/-- Monte-Carlo average of per-chain contributions, as the spec words
it: sum over the nmc chains divided by nmc. -/
def mcAvg (nmc : ℕ) (contrib : Fin nmc → ℚ) : ℚ :=
  (∑ k, contrib k) / (nmc : ℚ)

/-- Accumulator Statphi11 and Statphi01 of saem.cpp lines 882-883: the
sum over chains of the per-subject random-effect values. -/
def accumChainSum (nmc N p : ℕ) (phis : Fin nmc → Mat N p) : Mat N p :=
  fun i j => ∑ k, phis k i j

/-- Accumulator Statphi12 and Statphi02 of saem.cpp lines 887-888: the
sum over chains of the Gram matrix of the per-chain effect matrix. -/
def accumChainOuter (nmc N p : ℕ) (phis : Fin nmc → Mat N p) : Mat p p :=
  fun j j2 => ∑ k, ∑ i, phis k i j * phis k i j2

/-- The matrix statistic update of saem.cpp lines 969-973, for example
statphi11 = statphi11 + pas(kiter)*(Statphi11/nmc - statphi11). -/
def saStatMatUpdate (m n : ℕ) (pasK : ℚ) (nmc : ℕ) (stat acc : Mat m n) : Mat m n :=
  fun i j => stat i j + pasK * (acc i j / (nmc : ℚ) - stat i j)

/-- The scalar residual statistic update of saem.cpp line 975:
statrese(b) = statrese(b) + pas(kiter)*(statr(b)/nmc - statrese(b)). -/
def saStatSclUpdate (pasK : ℚ) (nmc : ℕ) (statrese statr : ℚ) : ℚ :=
  statrese + pasK * (statr / (nmc : ℚ) - statrese)

/-- A double that may be NaN, for the parts of the code that test
std::isnan explicitly. -/
inductive RVal where
  | nan : RVal
  | val : ℚ → RVal
deriving DecidableEq

/-- Comparison of a possibly-NaN double with a constant; any
comparison with NaN is false, as in IEEE arithmetic. -/
def rvalGt (x : RVal) (c : ℚ) : Bool :=
  match x with
  | .nan => false
  | .val q => decide (c < q)

/-- Test for NaN, modelling std::isnan. -/
def rvalIsNan : RVal → Bool
  | .nan => true
  | .val _ => false

/-- The per-endpoint variance candidate of saem.cpp line 1034:
statrese(b) divided by the observation count of that endpoint; a zero
count makes the double quotient non-finite, modelled as NaN. -/
def sig2Of (statrese : ℚ) (cnt : ℕ) : RVal :=
  if cnt = 0 then RVal.nan else RVal.val (statrese / (cnt : ℚ))

/-- The storing of sigma2(b) in saem.cpp lines 1647-1649: first values
above 1.0e99 are replaced by 1.0e99, then NaN is replaced by 1.0e99. -/
def sigma2Store (s : RVal) : RVal :=
  let s1 := if rvalGt s (10 ^ 99) then RVal.val (10 ^ 99) else s
  if rvalIsNan s1 then RVal.val (10 ^ 99) else s1

/-- The global context consumed by the objective functions of saem.cpp:
observation and prediction arrays, transform parameters, the combined
additive-proportional flag, and the fixed-parameter mask and values. -/
structure ObjEnv where
  ys : List ℚ
  fs : List ℚ
  lambda : ℚ
  yj : ℤ
  low : ℚ
  hi : ℚ
  propT : ℤ
  addProp : ℤ
  fixedIdx : Fin 4 → ℤ
  fixedValue : Fin 4 → ℚ
  lambdaR : ℚ
  powR : ℚ

/-- Sequential consumption of one objective parameter, as in the
curi++ pattern of saem.cpp lines 97-106: a slot whose fixed flag is
one takes the stored fixed value and leaves the vector alone,
otherwise the next vector entry is consumed. -/
def takeParam (fixedIdx : ℤ) (fixedValue : ℚ) (ab : List ℚ) : ℚ × List ℚ :=
  if fixedIdx = 1 then (fixedValue, ab) else (ab.headD 0, ab.tail)

/-- The additive-plus-proportional residual scale of obj and objH in
saem.cpp lines 116-120 and 340-346, taking the already squared scale
parameters: combined by sum when the addProp flag is one, otherwise in
quadrature. -/
def gAddProp (E : Ext) (addProp : ℤ) (ab02 ab12 fa : ℚ) : ℚ :=
  if addProp = 1 then ab02 + ab12 * fa
  else E.sqrt (ab02 * ab02 + ab12 * ab12 * fa * fa)

/-- Per-observation contribution of obj in saem.cpp lines 109-125. -/
def objTermA (E : Ext) (env : ObjEnv) (ab02 ab12 : ℚ) (p : ℚ × ℚ) : ℚ :=
  let ft := E.powerD p.2 env.lambda env.yj env.low env.hi
  let ytr := E.powerD p.1 env.lambda env.yj env.low env.hi
  let fa := handleF env.propT ft p.2 false false
  let g := clipG (gAddProp E env.addProp ab02 ab12 fa)
  let cur := (ytr - ft) / g
  cur * cur + 2 * E.log g

/-- Translation of obj in saem.cpp lines 90-127, the additive plus
proportional objective: the two scale parameters are squared up front
and the loop accumulates the per-observation terms. -/
def obj (E : Ext) (env : ObjEnv) (ab : List ℚ) : ℚ :=
  let t0 := takeParam (env.fixedIdx 0) (env.fixedValue 0) ab
  let t1 := takeParam (env.fixedIdx 1) (env.fixedValue 1) t0.2
  let ab02 := t0.1 * t0.1
  let ab12 := t1.1 * t1.1
  (env.ys.zip env.fs).foldl (fun s p => s + objTermA E env ab02 ab12 p) 0

/-- The additive-plus-power residual scale of objC in saem.cpp lines
159-165; the quadrature branch has no square root in the source. -/
def gAddPow (E : Ext) (addProp : ℤ) (ab02 ab12 pw fa : ℚ) : ℚ :=
  if addProp = 1 then ab02 * ab02 + ab12 * ab12 * E.rpow fa pw
  else
    let ab0 := ab02 * ab02
    let ab1 := ab12 * ab12
    ab0 * ab0 + ab1 * ab1 * E.rpow fa (2 * pw)

/-- Per-observation contribution of objC in saem.cpp lines 152-170. -/
def objTermC (E : Ext) (env : ObjEnv) (ab02 ab12 pw : ℚ) (p : ℚ × ℚ) : ℚ :=
  let ft := E.powerD p.2 env.lambda env.yj env.low env.hi
  let ytr := E.powerD p.1 env.lambda env.yj env.low env.hi
  let fa := handleF env.propT ft p.2 false false
  let g := clipG (gAddPow E env.addProp ab02 ab12 pw fa)
  let cur := (ytr - ft) / g
  cur * cur + 2 * E.log g

/-- Translation of objC in saem.cpp lines 130-172, additive plus
power. -/
def objC (E : Ext) (env : ObjEnv) (ab : List ℚ) : ℚ :=
  let t0 := takeParam (env.fixedIdx 0) (env.fixedValue 0) ab
  let t1 := takeParam (env.fixedIdx 1) (env.fixedValue 1) t0.2
  let t2 := takeParam (env.fixedIdx 2) (env.fixedValue 2) t1.2
  let pw := toPow E env.powR t2.1
  (env.ys.zip env.fs).foldl (fun s p => s + objTermC E env t0.1 t1.1 pw p) 0

/-- Per-observation contribution of objD in saem.cpp lines 193-203:
power-only scale on the zero-adjusted, untruncated prediction. -/
def objTermD (E : Ext) (env : ObjEnv) (ab02 pw : ℚ) (p : ℚ × ℚ) : ℚ :=
  let ft := E.powerD p.2 env.lambda env.yj env.low env.hi
  let ytr := E.powerD p.1 env.lambda env.yj env.low env.hi
  let fa := handleF env.propT ft p.2 false true
  let g := clipG (ab02 * ab02 * E.rpow fa pw)
  let cur := (ytr - ft) / g
  cur * cur + 2 * E.log g

/-- Translation of objD in saem.cpp lines 175-205, power only. -/
def objD (E : Ext) (env : ObjEnv) (ab : List ℚ) : ℚ :=
  let t0 := takeParam (env.fixedIdx 0) (env.fixedValue 0) ab
  let t1 := takeParam (env.fixedIdx 1) (env.fixedValue 1) t0.2
  let pw := toPow E env.powR t1.1
  (env.ys.zip env.fs).foldl (fun s p => s + objTermD E env t0.1 pw p) 0

/-- Per-observation contribution of objE in saem.cpp lines 225-234:
additive scale with the lambda under optimization. -/
def objTermE (E : Ext) (env : ObjEnv) (ab02 lam : ℚ) (p : ℚ × ℚ) : ℚ :=
  let ft := E.powerD p.2 lam env.yj env.low env.hi
  let ytr := E.powerD p.1 lam env.yj env.low env.hi
  let g := clipG (ab02 * ab02)
  let cur := (ytr - ft) / g
  cur * cur + 2 * E.log g

/-- Translation of objE in saem.cpp lines 208-236, additive plus
lambda. -/
def objE (E : Ext) (env : ObjEnv) (ab : List ℚ) : ℚ :=
  let t0 := takeParam (env.fixedIdx 0) (env.fixedValue 0) ab
  let t1 := takeParam (env.fixedIdx 1) (env.fixedValue 1) t0.2
  let lam := toLambda E env.lambdaR t1.1
  (env.ys.zip env.fs).foldl (fun s p => s + objTermE E env t0.1 lam p) 0

/-- Per-observation contribution of objF in saem.cpp lines 256-267:
proportional scale with lambda under optimization; a scale of exactly
zero is replaced by one before clipping. -/
def objTermF (E : Ext) (env : ObjEnv) (ab02 lam : ℚ) (p : ℚ × ℚ) : ℚ :=
  let ft := E.powerD p.2 lam env.yj env.low env.hi
  let ytr := E.powerD p.1 lam env.yj env.low env.hi
  let fa := handleF env.propT ft p.2 false true
  let g0 := ab02 * ab02 * fa
  let g := clipG (if g0 = 0 then 1 else g0)
  let cur := (ytr - ft) / g
  cur * cur + 2 * E.log g

/-- Translation of objF in saem.cpp lines 239-269, proportional plus
lambda. -/
def objF (E : Ext) (env : ObjEnv) (ab : List ℚ) : ℚ :=
  let t0 := takeParam (env.fixedIdx 0) (env.fixedValue 0) ab
  let t1 := takeParam (env.fixedIdx 1) (env.fixedValue 1) t0.2
  let lam := toLambda E env.lambdaR t1.1
  (env.ys.zip env.fs).foldl (fun s p => s + objTermF E env t0.1 lam p) 0

/-- Per-observation contribution of objG in saem.cpp lines 295-306:
power scale with lambda under optimization, zero replaced by one. -/
def objTermG (E : Ext) (env : ObjEnv) (ab02 pw lam : ℚ) (p : ℚ × ℚ) : ℚ :=
  let ft := E.powerD p.2 lam env.yj env.low env.hi
  let ytr := E.powerD p.1 lam env.yj env.low env.hi
  let fa := handleF env.propT ft p.2 false true
  let g0 := ab02 * ab02 * E.rpow fa pw
  let g := clipG (if g0 = 0 then 1 else g0)
  let cur := (ytr - ft) / g
  cur * cur + 2 * E.log g

/-- Translation of objG in saem.cpp lines 272-308, power plus
lambda. -/
def objG (E : Ext) (env : ObjEnv) (ab : List ℚ) : ℚ :=
  let t0 := takeParam (env.fixedIdx 0) (env.fixedValue 0) ab
  let t1 := takeParam (env.fixedIdx 1) (env.fixedValue 1) t0.2
  let t2 := takeParam (env.fixedIdx 2) (env.fixedValue 2) t1.2
  let lam := toLambda E env.lambdaR t2.1
  let pw := toPow E env.powR t1.1
  (env.ys.zip env.fs).foldl (fun s p => s + objTermG E env t0.1 pw lam p) 0

/-- Per-observation contribution of objH in saem.cpp lines 333-351:
additive plus proportional with lambda under optimization; the scale
parameters enter squared. -/
def objTermH (E : Ext) (env : ObjEnv) (ab02 ab12 lam : ℚ) (p : ℚ × ℚ) : ℚ :=
  let ft := E.powerD p.2 lam env.yj env.low env.hi
  let ytr := E.powerD p.1 lam env.yj env.low env.hi
  let fa := handleF env.propT ft p.2 false false
  let g := clipG (gAddProp E env.addProp (ab02 * ab02) (ab12 * ab12) fa)
  let cur := (ytr - ft) / g
  cur * cur + 2 * E.log g

/-- Translation of objH in saem.cpp lines 311-353, additive plus
proportional plus lambda. -/
def objH (E : Ext) (env : ObjEnv) (ab : List ℚ) : ℚ :=
  let t0 := takeParam (env.fixedIdx 0) (env.fixedValue 0) ab
  let t1 := takeParam (env.fixedIdx 1) (env.fixedValue 1) t0.2
  let t2 := takeParam (env.fixedIdx 2) (env.fixedValue 2) t1.2
  let lam := toLambda E env.lambdaR t2.1
  (env.ys.zip env.fs).foldl (fun s p => s + objTermH E env t0.1 t1.1 lam p) 0

/-- The additive-plus-power-with-lambda residual scale of objI in
saem.cpp lines 390-397: sum combination when addProp is one, otherwise
quadrature applied after raising the prediction to the power. -/
def gAddPowLam (E : Ext) (addProp : ℤ) (ab02 ab12 pw fa : ℚ) : ℚ :=
  if addProp = 1 then ab02 * ab02 + ab12 * ab12 * E.rpow fa pw
  else
    let ab0 := ab02 * ab02
    let ab1 := ab12 * ab12
    let fa2 := E.rpow fa pw
    E.sqrt (ab0 * ab0 + ab1 * ab1 * fa2 * fa2)

/-- Per-observation contribution of objI in saem.cpp lines 385-402. -/
def objTermI (E : Ext) (env : ObjEnv) (ab02 ab12 pw lam : ℚ) (p : ℚ × ℚ) : ℚ :=
  let ft := E.powerD p.2 lam env.yj env.low env.hi
  let ytr := E.powerD p.1 lam env.yj env.low env.hi
  let fa := handleF env.propT ft p.2 false false
  let g := clipG (gAddPowLam E env.addProp ab02 ab12 pw fa)
  let cur := (ytr - ft) / g
  cur * cur + 2 * E.log g

/-- Translation of objI in saem.cpp lines 356-404, additive plus power
plus lambda. -/
def objI (E : Ext) (env : ObjEnv) (ab : List ℚ) : ℚ :=
  let t0 := takeParam (env.fixedIdx 0) (env.fixedValue 0) ab
  let t1 := takeParam (env.fixedIdx 1) (env.fixedValue 1) t0.2
  let t2 := takeParam (env.fixedIdx 2) (env.fixedValue 2) t1.2
  let t3 := takeParam (env.fixedIdx 3) (env.fixedValue 3) t2.2
  let lam := toLambda E env.lambdaR t3.1
  let pw := toPow E env.powR t2.1
  (env.ys.zip env.fs).foldl (fun s p => s + objTermI E env t0.1 t1.1 pw lam p) 0

/-- Modelled from the spec: claim C2 words the additive plus
proportional residual scale with the absolute value of the prediction,
additive and proportional parts combined by sum or in quadrature by
the addProp flag, the scale clipped before use.  This is the
spec-worded counterpart of obj, used to compare against the source. -/
def objSpecAbsAddProp (E : Ext) (env : ObjEnv) (ab : List ℚ) : ℚ :=
  let t0 := takeParam (env.fixedIdx 0) (env.fixedValue 0) ab
  let t1 := takeParam (env.fixedIdx 1) (env.fixedValue 1) t0.2
  let a2 := t0.1 * t0.1
  let b2 := t1.1 * t1.1
  ((env.ys.zip env.fs).map (fun p =>
    let ft := E.powerD p.2 env.lambda env.yj env.low env.hi
    let ytr := E.powerD p.1 env.lambda env.yj env.low env.hi
    let fa := handleF env.propT ft p.2 false false
    let g := clipG (if env.addProp = 1 then a2 + b2 * |fa|
                    else E.sqrt (a2 * a2 + b2 * b2 * |fa| * |fa|))
    let cur := (ytr - ft) / g
    cur * cur + 2 * E.log g)).sum

/-- Map-and-sum form of obj, used to state the corrected claim C2. -/
def objSumA (E : Ext) (env : ObjEnv) (ab : List ℚ) : ℚ :=
  let t0 := takeParam (env.fixedIdx 0) (env.fixedValue 0) ab
  let t1 := takeParam (env.fixedIdx 1) (env.fixedValue 1) t0.2
  ((env.ys.zip env.fs).map (objTermA E env (t0.1 * t0.1) (t1.1 * t1.1))).sum

/-- Map-and-sum form of objC. -/
def objSumC (E : Ext) (env : ObjEnv) (ab : List ℚ) : ℚ :=
  let t0 := takeParam (env.fixedIdx 0) (env.fixedValue 0) ab
  let t1 := takeParam (env.fixedIdx 1) (env.fixedValue 1) t0.2
  let t2 := takeParam (env.fixedIdx 2) (env.fixedValue 2) t1.2
  ((env.ys.zip env.fs).map (objTermC E env t0.1 t1.1 (toPow E env.powR t2.1))).sum

/-- Map-and-sum form of objD. -/
def objSumD (E : Ext) (env : ObjEnv) (ab : List ℚ) : ℚ :=
  let t0 := takeParam (env.fixedIdx 0) (env.fixedValue 0) ab
  let t1 := takeParam (env.fixedIdx 1) (env.fixedValue 1) t0.2
  ((env.ys.zip env.fs).map (objTermD E env t0.1 (toPow E env.powR t1.1))).sum

/-- Map-and-sum form of objE. -/
def objSumE (E : Ext) (env : ObjEnv) (ab : List ℚ) : ℚ :=
  let t0 := takeParam (env.fixedIdx 0) (env.fixedValue 0) ab
  let t1 := takeParam (env.fixedIdx 1) (env.fixedValue 1) t0.2
  ((env.ys.zip env.fs).map (objTermE E env t0.1 (toLambda E env.lambdaR t1.1))).sum

/-- Map-and-sum form of objF. -/
def objSumF (E : Ext) (env : ObjEnv) (ab : List ℚ) : ℚ :=
  let t0 := takeParam (env.fixedIdx 0) (env.fixedValue 0) ab
  let t1 := takeParam (env.fixedIdx 1) (env.fixedValue 1) t0.2
  ((env.ys.zip env.fs).map (objTermF E env t0.1 (toLambda E env.lambdaR t1.1))).sum

/-- Map-and-sum form of objG. -/
def objSumG (E : Ext) (env : ObjEnv) (ab : List ℚ) : ℚ :=
  let t0 := takeParam (env.fixedIdx 0) (env.fixedValue 0) ab
  let t1 := takeParam (env.fixedIdx 1) (env.fixedValue 1) t0.2
  let t2 := takeParam (env.fixedIdx 2) (env.fixedValue 2) t1.2
  ((env.ys.zip env.fs).map
    (objTermG E env t0.1 (toPow E env.powR t1.1) (toLambda E env.lambdaR t2.1))).sum

/-- Map-and-sum form of objH. -/
def objSumH (E : Ext) (env : ObjEnv) (ab : List ℚ) : ℚ :=
  let t0 := takeParam (env.fixedIdx 0) (env.fixedValue 0) ab
  let t1 := takeParam (env.fixedIdx 1) (env.fixedValue 1) t0.2
  let t2 := takeParam (env.fixedIdx 2) (env.fixedValue 2) t1.2
  ((env.ys.zip env.fs).map (objTermH E env t0.1 t1.1 (toLambda E env.lambdaR t2.1))).sum

/-- Map-and-sum form of objI. -/
def objSumI (E : Ext) (env : ObjEnv) (ab : List ℚ) : ℚ :=
  let t0 := takeParam (env.fixedIdx 0) (env.fixedValue 0) ab
  let t1 := takeParam (env.fixedIdx 1) (env.fixedValue 1) t0.2
  let t2 := takeParam (env.fixedIdx 2) (env.fixedValue 2) t1.2
  let t3 := takeParam (env.fixedIdx 3) (env.fixedValue 3) t2.2
  ((env.ys.zip env.fs).map
    (objTermI E env t0.1 t1.1 (toPow E env.powR t2.1) (toLambda E env.lambdaR t3.1))).sum

/-- Identity-flavoured instantiation of the external routines, used
for concrete evaluations: log is constantly zero, sqrt and pow are
stubs for branches a concrete test does not take, the transforms are
the identity in their first argument. -/
def extVal : Ext :=
  { log := fun _ => 0
    sqrt := fun _ => 0
    rpow := fun _ _ => 0
    powerD := fun x _ _ _ _ => x
    powerDi := fun x _ _ _ _ => x }

/-- Output state of one acceptance update inside do_mcmc: the chain
matrix and the two energy vectors. -/
structure McmcOut (nM p : ℕ) where
  phiM : Mat nM p
  uY : Fin nM → ℚ
  uPhi : Fin nM → ℚ

/-- Translation of the acceptance block of do_mcmc in saem.cpp lines
1933-1938: the index set ind collects the rows whose log-ratio deltu
is strictly below minus the log of that row's fresh uniform draw; the
target columns of those rows are overwritten by the proposal, their
U_y entries are refreshed, and for methods two and three the U_phi
entries as well.  The uniform draws are an explicit input u, the
Armadillo submatrix assignment is rendered pointwise. -/
def mcmcAcceptUpdate (nM p : ℕ) (E : Ext) (method : ℕ) (cols : List (Fin p))
    (phiM phiMc : Mat nM p) (uY ucY uPhi ucPhi deltu u : Fin nM → ℚ) :
    McmcOut nM p :=
  let ind := (List.finRange nM).filter (fun s => decide (deltu s < -(E.log (u s))))
  { phiM := fun s j => if s ∈ ind ∧ j ∈ cols then phiMc s j else phiM s j
    uY := fun s => if s ∈ ind then ucY s else uY s
    uPhi := fun s =>
      if method > 1 then (if s ∈ ind then ucPhi s else uPhi s) else uPhi s }

/-- Translation of the Gamma2_phi1 update of saem.cpp lines 996-1015,
taking the moment-based candidate G1 as input: the simulated-annealing
elementwise maximum against the decayed previous value during the
first nb_sa iterations, the structural mask, the diagonal floor at the
per-dimension minima, the post-burn-in fixed-element override, and the
diagonal-only constraint during the correlation burn-in, in source
order. -/
def gamma1Update (n kiter nb_sa nb_correl nb_fixOmega : ℕ) (coef_sa : ℚ)
    (old G1 covs : Mat n n) (Gmin : Fin n → ℚ) (fixedOn : Bool)
    (fixedIx : Fin n → Fin n → Bool) (fixedValues : Mat n n) : Mat n n :=
  let g1 : Mat n n := fun i j =>
    if kiter ≤ nb_sa then max (old i j * coef_sa) (if i = j then G1 i j else 0)
    else G1 i j
  let g2 : Mat n n := fun i j => g1 i j * covs i j
  let g3 : Mat n n := fun i j =>
    if i = j ∧ g2 i i < Gmin i then Gmin i else g2 i j
  let g4 : Mat n n := fun i j =>
    if fixedOn ∧ kiter > nb_fixOmega ∧ fixedIx i j then fixedValues i j
    else g3 i j
  fun i j => if kiter ≤ nb_correl then (if i = j then g4 i j else 0) else g4 i j

/-- Translation of the Gamma2_phi0 update of saem.cpp lines 1017-1031,
taking the moment-based candidate G0 as input: inside the estimation
window the candidate is floored on the diagonal and its diagonal is
kept; afterwards the kept diagonal decays geometrically; either way
the stored matrix is the diagonal matrix of the kept vector.  The
result pairs the stored matrix with the kept diagonal. -/
def gamma0Update (n kiter niter_phi0 : ℕ) (coef_phi0 : ℚ) (G0 : Mat n n)
    (dOld : Fin n → ℚ) (Gmin : Fin n → ℚ) : Mat n n × (Fin n → ℚ) :=
  if kiter ≤ niter_phi0 then
    let g : Mat n n := fun i j => if i = j ∧ G0 i i < Gmin i then Gmin i else G0 i j
    let d : Fin n → ℚ := fun i => g i i
    (fun i j => if i = j then d i else 0, d)
  else
    let d : Fin n → ℚ := fun i => dOld i * coef_phi0
    (fun i j => if i = j then d i else 0, d)

/-- Numeric code of the additive residual model in saem.cpp line 59. -/
def rmAdd : ℕ := 1

/-- Numeric code of the proportional residual model, saem.cpp line 60. -/
def rmProp : ℕ := 2

/-- Numeric code of the power residual model, saem.cpp line 61. -/
def rmPow : ℕ := 3

/-- One standardized residual of the statistic accumulation loop in
saem.cpp lines 901-916: transform observation and prediction, subtract,
and for the proportional model divide by the truncated, zero-adjusted
prediction, the bottom-clamped value being replaced by one. -/
def residTransformed (E : Ext) (resMod : ℕ) (propT : ℤ) (lambda : ℚ) (yj : ℤ)
    (low hi : ℚ) (yv fv : ℚ) : ℚ :=
  let r := E.powerD yv lambda yj low hi
  let ft := E.powerD fv lambda yj low hi
  let r1 := r - ft
  if resMod = rmProp then
    let fa := handleF propT ft fv true true
    let fa1 := if fa ≤ xlo then 1 else fa
    r1 / fa1
  else r1

/-- Sum of squares of a list, modelling the Armadillo dot of a vector
with itself. -/
def dotSelf (l : List ℚ) : ℚ := (l.map (fun r => r * r)).sum

/-- Translation of the per-chain, per-endpoint residual statistic
contribution resk of saem.cpp lines 897-936: for the additive and
proportional models the clipped sum of squared standardized residuals,
for every other residual model the constant one. -/
def reskEndpoint (E : Ext) (resMod : ℕ) (propT : ℤ) (lambda : ℚ) (yj : ℤ)
    (low hi : ℚ) (ys fs : List ℚ) : ℚ :=
  if resMod ≤ rmProp then
    let resk := dotSelf
      ((ys.zip fs).map (fun p => residTransformed E resMod propT lambda yj low hi p.1 p.2))
    if resk > xup then xup else if resk < xlo then xlo else resk
  else 1

/-- Clipping into a closed interval, as the spec words it. -/
def clipInto (lo up x : ℚ) : ℚ :=
  if x < lo then lo else if x > up then up else x

/-- Modelled from the spec: claim C5 words the per-chain residual
contribution as the clipped sum of squared standardized residuals of
the endpoint, for every residual-model variant; this definition
follows those words and is compared with reskEndpoint. -/
def reskSpec (E : Ext) (resMod : ℕ) (propT : ℤ) (lambda : ℚ) (yj : ℤ)
    (low hi : ℚ) (ys fs : List ℚ) : ℚ :=
  clipInto xlo xup (dotSelf
    ((ys.zip fs).map (fun p => residTransformed E resMod propT lambda yj low hi p.1 p.2)))

/-- The four residual parameters of one endpoint. -/
structure ResState where
  ares : ℚ
  bres : ℚ
  cres : ℚ
  lres : ℚ
deriving DecidableEq

/-- Iteration-level inputs of the residual fitter: iteration index,
residual burn-in count, statistic step size, and the two
reparametrization ranges. -/
structure ResBase where
  kiter : ℕ
  nb_fixResid : ℕ
  pasK : ℚ
  powR : ℚ
  lambdaR : ℚ

/-- Fixed-parameter configuration of one endpoint: offset into the
flat residual-parameter layout, the fixed flags, and the externally
supplied values. -/
structure ResFlags where
  offsetR : ℕ
  resFixed : ℕ → ℤ
  resValue : ℕ → ℚ

/-- Observable outcome of one endpoint update: the new parameters, the
start vector handed to the minimizer, and the fixed mask and values
stashed for the objective. -/
structure StepOut where
  st : ResState
  start : List ℚ
  fI : Fin 4 → ℤ
  fV : Fin 4 → ℚ

/-- One post-burn-in blend slot, mirroring the adjust-back loops of
saem.cpp (for example lines 1111-1120): a fixed slot keeps its value
and consumes nothing, a free slot consumes the next minimizer
coordinate, maps it back to the natural domain and moves toward it by
the step size. -/
def blendSlot (pasK : ℚ) (fixed : Bool) (v : ℚ) (mapBack : ℚ → ℚ)
    (px : List ℚ) : ℚ × List ℚ :=
  if fixed then (v, px) else (v + pasK * (mapBack (px.headD 0) - v), px.tail)

/-- Translation of the rmAdd case of saem.cpp lines 1038-1046. -/
def stepAdd (E : Ext) (c : ResBase) (fl : ResFlags) (st : ResState)
    (sig2 : ℚ) : ResState :=
  if fl.resFixed fl.offsetR = 1 ∧ c.kiter > c.nb_fixResid then
    { st with ares := fl.resValue fl.offsetR }
  else
    { st with ares := E.sqrt sig2 }

/-- Translation of the rmProp case of saem.cpp lines 1047-1056. -/
def stepProp (E : Ext) (c : ResBase) (fl : ResFlags) (st : ResState)
    (sig2 : ℚ) : ResState :=
  if fl.resFixed fl.offsetR = 1 ∧ c.kiter > c.nb_fixResid then
    { st with bres := fl.resValue fl.offsetR }
  else
    { st with bres := E.sqrt (if sig2 = 0 then 1 else sig2) }

/-- Translation of the rmAddProp case of saem.cpp lines 1057-1128:
slots ares and bres, both squared in optimizer coordinates. -/
def stepAddProp (E : Ext) (c : ResBase) (fl : ResFlags) (st : ResState)
    (opt : List ℚ → List ℚ) : StepOut :=
  if c.kiter > c.nb_fixResid then
    let f0 := fl.resFixed fl.offsetR == 1
    let f1 := fl.resFixed (fl.offsetR + 1) == 1
    let a1 := if f0 then fl.resValue fl.offsetR else st.ares
    let b1 := if f1 then fl.resValue (fl.offsetR + 1) else st.bres
    let e0 := E.sqrt |a1|
    let e1 := E.sqrt |b1|
    let start := (if f0 then [] else [e0]) ++ (if f1 then [] else [e1])
    let px := opt start
    let r0 := blendSlot c.pasK f0 a1 (fun x => x * x) px
    let r1 := blendSlot c.pasK f1 b1 (fun x => x * x) r0.2
    { st := { st with ares := r0.1, bres := r1.1 }
      start := start
      fI := ![if f0 then 1 else 0, if f1 then 1 else 0, 0, 0]
      fV := ![if f0 then e0 else 0, if f1 then e1 else 0, 0, 0] }
  else
    let start := [E.sqrt |st.ares|, E.sqrt |st.bres|]
    let px := opt start
    { st := { st with
        ares := st.ares + c.pasK * (px.headD 0 * px.headD 0 - st.ares)
        bres := st.bres + c.pasK * (px.getD 1 0 * px.getD 1 0 - st.bres) }
      start := start
      fI := ![0, 0, 0, 0]
      fV := ![0, 0, 0, 0] }

/-- Translation of the rmAddPow case of saem.cpp lines 1129-1208:
slots ares, bres (squared) and cres (power reparametrization). -/
def stepAddPow (E : Ext) (c : ResBase) (fl : ResFlags) (st : ResState)
    (opt : List ℚ → List ℚ) : StepOut :=
  if c.kiter > c.nb_fixResid then
    let f0 := fl.resFixed fl.offsetR == 1
    let f1 := fl.resFixed (fl.offsetR + 1) == 1
    let f2 := fl.resFixed (fl.offsetR + 2) == 1
    let a1 := if f0 then fl.resValue fl.offsetR else st.ares
    let b1 := if f1 then fl.resValue (fl.offsetR + 1) else st.bres
    let c1 := if f2 then fl.resValue (fl.offsetR + 2) else st.cres
    let e0 := E.sqrt |a1|
    let e1 := E.sqrt |b1|
    let e2 := toPowEst E c.powR c1
    let start := (if f0 then [] else [e0]) ++ (if f1 then [] else [e1]) ++
      (if f2 then [] else [e2])
    let px := opt start
    let r0 := blendSlot c.pasK f0 a1 (fun x => x * x) px
    let r1 := blendSlot c.pasK f1 b1 (fun x => x * x) r0.2
    let r2 := blendSlot c.pasK f2 c1 (toPow E c.powR) r1.2
    { st := { st with ares := r0.1, bres := r1.1, cres := r2.1 }
      start := start
      fI := ![if f0 then 1 else 0, if f1 then 1 else 0, if f2 then 1 else 0, 0]
      fV := ![if f0 then e0 else 0, if f1 then e1 else 0, if f2 then e2 else 0, 0] }
  else
    let start := [E.sqrt |st.ares|, E.sqrt |st.bres|, toPowEst E c.powR st.cres]
    let px := opt start
    { st := { st with
        ares := st.ares + c.pasK * (px.headD 0 * px.headD 0 - st.ares)
        bres := st.bres + c.pasK * (px.getD 1 0 * px.getD 1 0 - st.bres)
        cres := st.cres + c.pasK * (toPow E c.powR (px.getD 2 0) - st.cres) }
      start := start
      fI := ![0, 0, 0, 0]
      fV := ![0, 0, 0, 0] }

/-- Translation of the rmPow case of saem.cpp lines 1210-1272: slots
bres (squared) and cres (power reparametrization).  In the branch for
iterations at or below the residual burn-in, line 1269 of the source
blends bres toward the product of the first and second minimizer
coordinates, not toward the square of the first. -/
def stepPow (E : Ext) (c : ResBase) (fl : ResFlags) (st : ResState)
    (opt : List ℚ → List ℚ) : StepOut :=
  if c.kiter > c.nb_fixResid then
    let f0 := fl.resFixed fl.offsetR == 1
    let f1 := fl.resFixed (fl.offsetR + 1) == 1
    let b1 := if f0 then fl.resValue fl.offsetR else st.bres
    let c1 := if f1 then fl.resValue (fl.offsetR + 1) else st.cres
    let e0 := E.sqrt |b1|
    let e1 := toPowEst E c.powR c1
    let start := (if f0 then [] else [e0]) ++ (if f1 then [] else [e1])
    let px := opt start
    let r0 := blendSlot c.pasK f0 b1 (fun x => x * x) px
    let r1 := blendSlot c.pasK f1 c1 (toPow E c.powR) r0.2
    { st := { st with bres := r0.1, cres := r1.1 }
      start := start
      fI := ![if f0 then 1 else 0, if f1 then 1 else 0, 0, 0]
      fV := ![if f0 then e0 else 0, if f1 then e1 else 0, 0, 0] }
  else
    let start := [E.sqrt |st.bres|, toPowEst E c.powR st.cres]
    let px := opt start
    { st := { st with
        bres := st.bres + c.pasK * (px.headD 0 * px.getD 1 0 - st.bres)
        cres := st.cres + c.pasK * (toPow E c.powR (px.getD 1 0) - st.cres) }
      start := start
      fI := ![0, 0, 0, 0]
      fV := ![0, 0, 0, 0] }

/-- Translation of the rmAddLam case of saem.cpp lines 1274-1336:
slots ares (squared) and lres (lambda reparametrization). -/
def stepAddLam (E : Ext) (c : ResBase) (fl : ResFlags) (st : ResState)
    (opt : List ℚ → List ℚ) : StepOut :=
  if c.kiter > c.nb_fixResid then
    let f0 := fl.resFixed fl.offsetR == 1
    let f1 := fl.resFixed (fl.offsetR + 1) == 1
    let a1 := if f0 then fl.resValue fl.offsetR else st.ares
    let l1 := if f1 then fl.resValue (fl.offsetR + 1) else st.lres
    let e0 := E.sqrt |a1|
    let e1 := toLambdaEst E c.lambdaR l1
    let start := (if f0 then [] else [e0]) ++ (if f1 then [] else [e1])
    let px := opt start
    let r0 := blendSlot c.pasK f0 a1 (fun x => x * x) px
    let r1 := blendSlot c.pasK f1 l1 (toLambda E c.lambdaR) r0.2
    { st := { st with ares := r0.1, lres := r1.1 }
      start := start
      fI := ![if f0 then 1 else 0, if f1 then 1 else 0, 0, 0]
      fV := ![if f0 then e0 else 0, if f1 then e1 else 0, 0, 0] }
  else
    let start := [E.sqrt |st.ares|, toLambdaEst E c.lambdaR st.lres]
    let px := opt start
    { st := { st with
        ares := st.ares + c.pasK * (px.headD 0 * px.headD 0 - st.ares)
        lres := st.lres + c.pasK * (toLambda E c.lambdaR (px.getD 1 0) - st.lres) }
      start := start
      fI := ![0, 0, 0, 0]
      fV := ![0, 0, 0, 0] }

/-- Translation of the rmPropLam case of saem.cpp lines 1338-1400:
slots bres (squared) and lres (lambda reparametrization). -/
def stepPropLam (E : Ext) (c : ResBase) (fl : ResFlags) (st : ResState)
    (opt : List ℚ → List ℚ) : StepOut :=
  if c.kiter > c.nb_fixResid then
    let f0 := fl.resFixed fl.offsetR == 1
    let f1 := fl.resFixed (fl.offsetR + 1) == 1
    let b1 := if f0 then fl.resValue fl.offsetR else st.bres
    let l1 := if f1 then fl.resValue (fl.offsetR + 1) else st.lres
    let e0 := E.sqrt |b1|
    let e1 := toLambdaEst E c.lambdaR l1
    let start := (if f0 then [] else [e0]) ++ (if f1 then [] else [e1])
    let px := opt start
    let r0 := blendSlot c.pasK f0 b1 (fun x => x * x) px
    let r1 := blendSlot c.pasK f1 l1 (toLambda E c.lambdaR) r0.2
    { st := { st with bres := r0.1, lres := r1.1 }
      start := start
      fI := ![if f0 then 1 else 0, if f1 then 1 else 0, 0, 0]
      fV := ![if f0 then e0 else 0, if f1 then e1 else 0, 0, 0] }
  else
    let start := [E.sqrt |st.bres|, toLambdaEst E c.lambdaR st.lres]
    let px := opt start
    { st := { st with
        bres := st.bres + c.pasK * (px.headD 0 * px.headD 0 - st.bres)
        lres := st.lres + c.pasK * (toLambda E c.lambdaR (px.getD 1 0) - st.lres) }
      start := start
      fI := ![0, 0, 0, 0]
      fV := ![0, 0, 0, 0] }

/-- Translation of the rmPowLam case of saem.cpp lines 1402-1477:
slots bres (squared), cres (power) and lres (lambda). -/
def stepPowLam (E : Ext) (c : ResBase) (fl : ResFlags) (st : ResState)
    (opt : List ℚ → List ℚ) : StepOut :=
  if c.kiter > c.nb_fixResid then
    let f0 := fl.resFixed fl.offsetR == 1
    let f1 := fl.resFixed (fl.offsetR + 1) == 1
    let f2 := fl.resFixed (fl.offsetR + 2) == 1
    let b1 := if f0 then fl.resValue fl.offsetR else st.bres
    let c1 := if f1 then fl.resValue (fl.offsetR + 1) else st.cres
    let l1 := if f2 then fl.resValue (fl.offsetR + 2) else st.lres
    let e0 := E.sqrt |b1|
    let e1 := toPowEst E c.powR c1
    let e2 := toLambdaEst E c.lambdaR l1
    let start := (if f0 then [] else [e0]) ++ (if f1 then [] else [e1]) ++
      (if f2 then [] else [e2])
    let px := opt start
    let r0 := blendSlot c.pasK f0 b1 (fun x => x * x) px
    let r1 := blendSlot c.pasK f1 c1 (toPow E c.powR) r0.2
    let r2 := blendSlot c.pasK f2 l1 (toLambda E c.lambdaR) r1.2
    { st := { st with bres := r0.1, cres := r1.1, lres := r2.1 }
      start := start
      fI := ![if f0 then 1 else 0, if f1 then 1 else 0, if f2 then 1 else 0, 0]
      fV := ![if f0 then e0 else 0, if f1 then e1 else 0, if f2 then e2 else 0, 0] }
  else
    let start := [E.sqrt |st.bres|, toPowEst E c.powR st.cres,
      toLambdaEst E c.lambdaR st.lres]
    let px := opt start
    { st := { st with
        bres := st.bres + c.pasK * (px.headD 0 * px.headD 0 - st.bres)
        cres := st.cres + c.pasK * (toPow E c.powR (px.getD 1 0) - st.cres)
        lres := st.lres + c.pasK * (toLambda E c.lambdaR (px.getD 2 0) - st.lres) }
      start := start
      fI := ![0, 0, 0, 0]
      fV := ![0, 0, 0, 0] }

/-- Translation of the rmAddPropLam case of saem.cpp lines 1479-1554:
slots ares, bres (squared) and lres (lambda). -/
def stepAddPropLam (E : Ext) (c : ResBase) (fl : ResFlags) (st : ResState)
    (opt : List ℚ → List ℚ) : StepOut :=
  if c.kiter > c.nb_fixResid then
    let f0 := fl.resFixed fl.offsetR == 1
    let f1 := fl.resFixed (fl.offsetR + 1) == 1
    let f2 := fl.resFixed (fl.offsetR + 2) == 1
    let a1 := if f0 then fl.resValue fl.offsetR else st.ares
    let b1 := if f1 then fl.resValue (fl.offsetR + 1) else st.bres
    let l1 := if f2 then fl.resValue (fl.offsetR + 2) else st.lres
    let e0 := E.sqrt |a1|
    let e1 := E.sqrt |b1|
    let e2 := toLambdaEst E c.lambdaR l1
    let start := (if f0 then [] else [e0]) ++ (if f1 then [] else [e1]) ++
      (if f2 then [] else [e2])
    let px := opt start
    let r0 := blendSlot c.pasK f0 a1 (fun x => x * x) px
    let r1 := blendSlot c.pasK f1 b1 (fun x => x * x) r0.2
    let r2 := blendSlot c.pasK f2 l1 (toLambda E c.lambdaR) r1.2
    { st := { st with ares := r0.1, bres := r1.1, lres := r2.1 }
      start := start
      fI := ![if f0 then 1 else 0, if f1 then 1 else 0, if f2 then 1 else 0, 0]
      fV := ![if f0 then e0 else 0, if f1 then e1 else 0, if f2 then e2 else 0, 0] }
  else
    let start := [E.sqrt |st.ares|, E.sqrt |st.bres|,
      toLambdaEst E c.lambdaR st.lres]
    let px := opt start
    { st := { st with
        ares := st.ares + c.pasK * (px.headD 0 * px.headD 0 - st.ares)
        bres := st.bres + c.pasK * (px.getD 1 0 * px.getD 1 0 - st.bres)
        lres := st.lres + c.pasK * (toLambda E c.lambdaR (px.getD 2 0) - st.lres) }
      start := start
      fI := ![0, 0, 0, 0]
      fV := ![0, 0, 0, 0] }

/-- Translation of the rmAddPowLam case of saem.cpp lines 1556-1644:
slots ares, bres (squared), cres (power) and lres (lambda). -/
def stepAddPowLam (E : Ext) (c : ResBase) (fl : ResFlags) (st : ResState)
    (opt : List ℚ → List ℚ) : StepOut :=
  if c.kiter > c.nb_fixResid then
    let f0 := fl.resFixed fl.offsetR == 1
    let f1 := fl.resFixed (fl.offsetR + 1) == 1
    let f2 := fl.resFixed (fl.offsetR + 2) == 1
    let f3 := fl.resFixed (fl.offsetR + 3) == 1
    let a1 := if f0 then fl.resValue fl.offsetR else st.ares
    let b1 := if f1 then fl.resValue (fl.offsetR + 1) else st.bres
    let c1 := if f2 then fl.resValue (fl.offsetR + 2) else st.cres
    let l1 := if f3 then fl.resValue (fl.offsetR + 3) else st.lres
    let e0 := E.sqrt |a1|
    let e1 := E.sqrt |b1|
    let e2 := toPowEst E c.powR c1
    let e3 := toLambdaEst E c.lambdaR l1
    let start := (if f0 then [] else [e0]) ++ (if f1 then [] else [e1]) ++
      (if f2 then [] else [e2]) ++ (if f3 then [] else [e3])
    let px := opt start
    let r0 := blendSlot c.pasK f0 a1 (fun x => x * x) px
    let r1 := blendSlot c.pasK f1 b1 (fun x => x * x) r0.2
    let r2 := blendSlot c.pasK f2 c1 (toPow E c.powR) r1.2
    let r3 := blendSlot c.pasK f3 l1 (toLambda E c.lambdaR) r2.2
    { st := { ares := r0.1, bres := r1.1, cres := r2.1, lres := r3.1 }
      start := start
      fI := ![if f0 then 1 else 0, if f1 then 1 else 0, if f2 then 1 else 0,
        if f3 then 1 else 0]
      fV := ![if f0 then e0 else 0, if f1 then e1 else 0, if f2 then e2 else 0,
        if f3 then e3 else 0] }
  else
    let start := [E.sqrt |st.ares|, E.sqrt |st.bres|,
      toPowEst E c.powR st.cres, toLambdaEst E c.lambdaR st.lres]
    let px := opt start
    let a2 := st.ares + c.pasK * (px.headD 0 * px.headD 0 - st.ares)
    let b2 := st.bres + c.pasK * (px.getD 1 0 * px.getD 1 0 - st.bres)
    let c2 := st.cres + c.pasK * (toPow E c.powR (px.getD 2 0) - st.cres)
    let l2 := st.lres + c.pasK * (toLambda E c.lambdaR (px.getD 3 0) - st.lres)
    { st := { ares := a2, bres := b2, cres := c2, lres := l2 }
      start := start
      fI := ![0, 0, 0, 0]
      fV := ![0, 0, 0, 0] }

/-- The supported distribution identifiers of saem.cpp lines 799-830:
one for normal, two for Poisson, three for binomial. -/
def distOK (dist : ℤ) : Bool := dist == 1 || dist == 2 || dist == 3

/-- Control-flow skeleton of the kiter loop of SAEM::saem_fit: each
iteration first dispatches on the distribution identifier and, when it
is unsupported, prints a message and returns from saem_fit at once, so
no sampling, statistic, parameter or history update of that or any
later iteration runs.  The observable engine state is abstract and
body is the remainder of one iteration; the pre-dispatch computations
of an iteration only fill derived caches and locals.  The result pairs
the final state with the message of an early return, if any. -/
def saemLoop {St : Type} (dist : ℤ) (body : ℕ → St → St) :
    ℕ → ℕ → St → St × Option String
  | 0, _, s => (s, none)
  | fuel + 1, k, s =>
    if distOK dist then saemLoop dist body fuel (k + 1) (body k s)
    else (s, some "unknown distribution")

/-- Translation of the exported saem_fit entry point of saem.cpp lines
2104-2136: after SAEM::saem_fit returns, whether or not it returned
early, the output record is assembled from the engine state and handed
back to the caller; no R level error is raised on an unsupported
distribution identifier, so the result is always an ok value. -/
def saemFitExportModel {St Out : Type} (dist : ℤ) (niter : ℕ)
    (body : ℕ → St → St) (build : St → Out) (s0 : St) : Except String Out :=
  let r := saemLoop dist body niter 0 s0
  Except.ok (build r.1)

/-- Concrete objective context for evaluations: one observation zero
with prediction minus one, identity-style transform instance, sum
combination, nothing fixed. -/
def envNeg : ObjEnv :=
  { ys := [0], fs := [-1], lambda := 0, yj := 2, low := 0, hi := 1,
    propT := 0, addProp := 1, fixedIdx := fun _ => 0, fixedValue := fun _ => 0,
    lambdaR := 2, powR := 2 }

/-- Folding addition of mapped terms from zero is the sum of the
mapped list; this is the loop-to-sum reading of the objective
functions. -/
theorem foldl_term_sum {α : Type} (f : α → ℚ) (l : List α) :
    l.foldl (fun s x => s + f x) 0 = (l.map f).sum := by
  have h : ∀ a : ℚ, l.foldl (fun s x => s + f x) a = a + (l.map f).sum := by
    induction l with
    | nil => intro a; simp
    | cons x xs ih => intro a; simp [ih, add_assoc]
  simpa using h 0

/-- The lower clip bound is below the upper clip bound. -/
theorem xlo_lt_xup : xlo < xup := by
  unfold xlo xup
  norm_num

/-- Claim C1: for every iteration and every sufficient statistic,
statphi11, statphi12, statphi01, statphi02 and each statrese entry,
the update is the Robbins-Monro recursion moving the statistic toward
the Monte-Carlo average across the nmc chains by the step pas(kiter);
consequently a zero step leaves the statistic unchanged and a unit
step replaces it by the current-iteration average. -/
theorem c1_stat_updates_robbins_monro
    (pasK : ℚ) (nmc N n1 n0 nend : ℕ)
    (s11 : Mat N n1) (s12 : Mat n1 n1) (s01 : Mat N n0) (s02 : Mat n0 n0)
    (sres : Fin nend → ℚ)
    (phi1 : Fin nmc → Mat N n1) (phi0 : Fin nmc → Mat N n0)
    (resk : Fin nmc → Fin nend → ℚ) :
    (∀ i j, saStatMatUpdate N n1 pasK nmc s11 (accumChainSum nmc N n1 phi1) i j
        = rmUpdate pasK (s11 i j) (mcAvg nmc (fun k => phi1 k i j)))
  ∧ (∀ j j2, saStatMatUpdate n1 n1 pasK nmc s12 (accumChainOuter nmc N n1 phi1) j j2
        = rmUpdate pasK (s12 j j2) (mcAvg nmc (fun k => ∑ i, phi1 k i j * phi1 k i j2)))
  ∧ (∀ i j, saStatMatUpdate N n0 pasK nmc s01 (accumChainSum nmc N n0 phi0) i j
        = rmUpdate pasK (s01 i j) (mcAvg nmc (fun k => phi0 k i j)))
  ∧ (∀ j j2, saStatMatUpdate n0 n0 pasK nmc s02 (accumChainOuter nmc N n0 phi0) j j2
        = rmUpdate pasK (s02 j j2) (mcAvg nmc (fun k => ∑ i, phi0 k i j * phi0 k i j2)))
  ∧ (∀ b, saStatSclUpdate pasK nmc (sres b) (∑ k, resk k b)
        = rmUpdate pasK (sres b) (mcAvg nmc (fun k => resk k b)))
  ∧ (pasK = 0 →
      (∀ i j, saStatMatUpdate N n1 pasK nmc s11 (accumChainSum nmc N n1 phi1) i j
          = s11 i j)
    ∧ (∀ b, saStatSclUpdate pasK nmc (sres b) (∑ k, resk k b) = sres b))
  ∧ (pasK = 1 →
      (∀ i j, saStatMatUpdate N n1 pasK nmc s11 (accumChainSum nmc N n1 phi1) i j
          = mcAvg nmc (fun k => phi1 k i j))
    ∧ (∀ b, saStatSclUpdate pasK nmc (sres b) (∑ k, resk k b)
          = mcAvg nmc (fun k => resk k b))) := by
  refine ⟨fun i j => rfl, fun j j2 => rfl, fun i j => rfl, fun j j2 => rfl,
    fun b => rfl, fun hp => ⟨fun i j => ?_, fun b => ?_⟩,
    fun hp => ⟨fun i j => ?_, fun b => ?_⟩⟩
  · simp [saStatMatUpdate, hp]
  · simp [saStatSclUpdate, hp]
  · simp only [saStatMatUpdate, accumChainSum, mcAvg, hp]
    ring
  · simp only [saStatSclUpdate, mcAvg, hp]
    ring

/-- Witness for claim C1: with step zero a statistic entry stays at
its old value, and with step one the residual statistic becomes the
chain average. -/
theorem c1_stat_updates_robbins_monro_witness :
    saStatMatUpdate 1 1 0 2 (fun _ _ => 5) (accumChainSum 2 1 1 (fun _ _ _ => 3)) 0 0 = 5
  ∧ saStatSclUpdate 1 2 4 12 = 6 := by
  have h0 := c1_stat_updates_robbins_monro 0 2 1 1 1 1 (fun _ _ => 5) (fun _ _ => 0)
    (fun _ _ => 0) (fun _ _ => 0) (fun _ => 4) (fun _ _ _ => 3) (fun _ _ _ => 0)
    (fun _ _ => 6)
  have h1 := c1_stat_updates_robbins_monro 1 2 1 1 1 1 (fun _ _ => 5) (fun _ _ => 0)
    (fun _ _ => 0) (fun _ _ => 0) (fun _ => 4) (fun _ _ _ => 3) (fun _ _ _ => 0)
    (fun _ _ => 6)
  refine ⟨(h0.2.2.2.2.2.1 rfl).1 0 0, ?_⟩
  have h2 := (h1.2.2.2.2.2.2 rfl).2 0
  norm_num [mcAvg, Fin.sum_univ_two] at h2
  convert h2 using 2

/-- Claim C10: the stored per-endpoint residual variance is a plain
value of at most 1.0e99; a NaN quotient or one above 1.0e99 is
replaced by 1.0e99 before the iteration completes. -/
theorem c10_sigma2_clamped (sres : ℚ) (cnt : ℕ) :
    (∃ q : ℚ, sigma2Store (sig2Of sres cnt) = RVal.val q ∧ q ≤ 10 ^ 99)
  ∧ sigma2Store RVal.nan = RVal.val (10 ^ 99)
  ∧ (∀ q : ℚ, 10 ^ 99 < q → sigma2Store (RVal.val q) = RVal.val (10 ^ 99)) := by
  refine ⟨?_, by simp [sigma2Store, rvalGt, rvalIsNan], fun q hq => ?_⟩
  · by_cases hc : cnt = 0
    · exact ⟨10 ^ 99, by simp [sig2Of, hc, sigma2Store, rvalGt, rvalIsNan], le_refl _⟩
    · by_cases hb : (10 : ℚ) ^ 99 < sres / (cnt : ℚ)
      · exact ⟨10 ^ 99, by simp [sig2Of, hc, sigma2Store, rvalGt, rvalIsNan, hb],
          le_refl _⟩
      · exact ⟨sres / (cnt : ℚ),
          by simp [sig2Of, hc, sigma2Store, rvalGt, rvalIsNan, hb], le_of_not_lt hb⟩
  · simp [sigma2Store, rvalGt, rvalIsNan, hq]

/-- Witness for claim C10: the value ten to the hundred is clamped to
1.0e99. -/
theorem c10_sigma2_clamped_witness :
    sigma2Store (RVal.val (10 ^ 100)) = RVal.val (10 ^ 99) :=
  (c10_sigma2_clamped 0 0).2.2 (10 ^ 100) (by norm_num)

/-- Claim C3: in each Metropolis-Hastings kernel invocation a
subject-chain row is accepted exactly when its log-ratio deltu is
strictly below minus the log of that row's independently drawn
uniform; exactly the accepted rows are replaced by the proposal on the
target-dimension columns, their U_y entries are refreshed, and U_phi
is refreshed only for the second and third kernels. -/
theorem c3_mcmc_acceptance (nM p : ℕ) (E : Ext) (method : ℕ) (cols : List (Fin p))
    (phiM phiMc : Mat nM p) (uY ucY uPhi ucPhi deltu u : Fin nM → ℚ) :
    (∀ s j,
      (mcmcAcceptUpdate nM p E method cols phiM phiMc uY ucY uPhi ucPhi deltu u).phiM s j
        = if deltu s < -(E.log (u s)) ∧ j ∈ cols then phiMc s j else phiM s j)
  ∧ (∀ s,
      (mcmcAcceptUpdate nM p E method cols phiM phiMc uY ucY uPhi ucPhi deltu u).uY s
        = if deltu s < -(E.log (u s)) then ucY s else uY s)
  ∧ (1 < method → ∀ s,
      (mcmcAcceptUpdate nM p E method cols phiM phiMc uY ucY uPhi ucPhi deltu u).uPhi s
        = if deltu s < -(E.log (u s)) then ucPhi s else uPhi s)
  ∧ (method ≤ 1 → ∀ s,
      (mcmcAcceptUpdate nM p E method cols phiM phiMc uY ucY uPhi ucPhi deltu u).uPhi s
        = uPhi s) := by
  refine ⟨fun s j => ?_, fun s => ?_, fun h s => ?_, fun h s => ?_⟩
  · simp [mcmcAcceptUpdate, List.mem_filter, List.mem_finRange]
  · simp [mcmcAcceptUpdate, List.mem_filter, List.mem_finRange]
  · simp [mcmcAcceptUpdate, List.mem_filter, List.mem_finRange, h]
  · simp [mcmcAcceptUpdate, Nat.not_lt.mpr h]

/-- Witness for claim C3: with log-ratio minus one against a zero
threshold the single row is accepted, its chain value replaced and its
energies refreshed. -/
theorem c3_mcmc_acceptance_witness :
    (mcmcAcceptUpdate 1 1 extVal 2 [0] (fun _ _ => 10) (fun _ _ => 20) (fun _ => 1)
      (fun _ => 2) (fun _ => 3) (fun _ => 4) (fun _ => -1) (fun _ => 1)).phiM 0 0 = 20
  ∧ (mcmcAcceptUpdate 1 1 extVal 2 [0] (fun _ _ => 10) (fun _ _ => 20) (fun _ => 1)
      (fun _ => 2) (fun _ => 3) (fun _ => 4) (fun _ => -1) (fun _ => 1)).uPhi 0 = 4 := by
  have h := c3_mcmc_acceptance 1 1 extVal 2 [0] (fun _ _ => 10) (fun _ _ => 20)
    (fun _ => 1) (fun _ => 2) (fun _ => 3) (fun _ => 4) (fun _ => -1) (fun _ => 1)
  have hc : ((-1 : ℚ) < -(extVal.log 1)) := by norm_num [extVal]
  constructor
  · have h1 := h.1 0 0
    rw [if_pos ⟨hc, by simp⟩] at h1
    exact h1
  · have h3 := h.2.2.1 (by norm_num) 0
    rw [if_pos hc] at h3
    exact h3

/-- A floored value is at least the floor. -/
theorem le_ite_floor (x gm : ℚ) : gm ≤ if x < gm then gm else x := by
  by_cases h : x < gm <;> simp [h, le_of_not_lt]

/-- Counterexample to claim C4: an active post-burn-in fixed-element
override with a fixed diagonal value below the configured minimum
leaves the updated diagonal entry below that minimum. -/
theorem c4_counterexample :
    gamma1Update 1 1 0 0 0 1 (fun _ _ => 0) (fun _ _ => 5) (fun _ _ => 1)
      (fun _ => 1) true (fun _ _ => true) (fun _ _ => 1 / 2) 0 0 < 1 := by
  norm_num [gamma1Update]

/-- Claim C4 (amended): after the covariance update every diagonal
entry of the estimated-subset covariance is at least its configured
minimum, except an entry overwritten by the post-burn-in fixed-element
override, which equals the supplied fixed value; within its estimation
window every diagonal entry of the covariate-subset covariance is at
least its configured minimum. -/
theorem c4_amended_diag_floor (n m kiter nb_sa nb_correl nb_fixOmega niter_phi0 : ℕ)
    (coef_sa coef_phi0 : ℚ) (old G1 covs : Mat n n) (Gmin : Fin n → ℚ)
    (fixedOn : Bool) (fixedIx : Fin n → Fin n → Bool) (fixedValues : Mat n n)
    (G0 : Mat m m) (dOld : Fin m → ℚ) (Gmin0 : Fin m → ℚ) :
    (∀ i, Gmin i ≤
        gamma1Update n kiter nb_sa nb_correl nb_fixOmega coef_sa old G1 covs Gmin
          fixedOn fixedIx fixedValues i i
      ∨ ((fixedOn ∧ nb_fixOmega < kiter ∧ fixedIx i i) ∧
          gamma1Update n kiter nb_sa nb_correl nb_fixOmega coef_sa old G1 covs Gmin
            fixedOn fixedIx fixedValues i i = fixedValues i i))
  ∧ (kiter ≤ niter_phi0 → ∀ i,
      Gmin0 i ≤ (gamma0Update m kiter niter_phi0 coef_phi0 G0 dOld Gmin0).1 i i) := by
  constructor
  · intro i
    unfold gamma1Update
    by_cases hfix : (fixedOn : Prop) ∧ nb_fixOmega < kiter ∧ (fixedIx i i : Prop)
    · right
      refine ⟨hfix, ?_⟩
      by_cases hc : kiter ≤ nb_correl <;> simp [hc, hfix]
    · left
      by_cases hc : kiter ≤ nb_correl <;> simp [hc, hfix] <;> exact le_ite_floor _ _
  · intro hw i
    unfold gamma0Update
    simp [hw]
    exact le_ite_floor _ _

/-- Witness for claim C4 (amended): with a zero moment candidate and
minimum one, the covariate-subset diagonal is floored to one inside
the estimation window, and without an override the estimated-subset
diagonal respects its floor. -/
theorem c4_amended_diag_floor_witness :
    ((1 : ℚ) ≤ gamma1Update 1 0 0 0 0 1 (fun _ _ => 0) (fun _ _ => 0) (fun _ _ => 1)
        (fun _ => 1) false (fun _ _ => false) (fun _ _ => 0) 0 0
      ∨ ((false ∧ 0 < 0 ∧ False) ∧
          gamma1Update 1 0 0 0 0 1 (fun _ _ => 0) (fun _ _ => 0) (fun _ _ => 1)
            (fun _ => 1) false (fun _ _ => false) (fun _ _ => 0) 0 0 = 0))
  ∧ (1 : ℚ) ≤ (gamma0Update 1 0 0 1 (fun _ _ => 0) (fun _ => 0) (fun _ => 1)).1 0 0 := by
  have h := c4_amended_diag_floor 1 1 0 0 0 0 0 1 1 (fun _ _ => 0) (fun _ _ => 0)
    (fun _ _ => 1) (fun _ => 1) false (fun _ _ => false) (fun _ _ => 0)
    (fun _ _ => 0) (fun _ => 0) (fun _ => 1)
  refine ⟨?_, h.2 (le_refl 0) 0⟩
  have h1 := h.1 0
  simpa using h1

/-- Counterexample to claim C5: for the power residual model the
per-chain contribution is the constant one, not the clipped sum of
squared standardized residuals. -/
theorem c5_counterexample :
    reskEndpoint extVal rmPow 0 0 2 0 1 [3] [0]
      ≠ reskSpec extVal rmPow 0 0 2 0 1 [3] [0] := by
  norm_num [reskEndpoint, reskSpec, residTransformed, dotSelf, clipInto, extVal,
    handleF, rmPow, rmProp, xlo, xup]

/-- Claim C5 (amended): the per-chain, per-endpoint residual statistic
contribution equals the clipped sum of squared standardized residuals,
with the transform applied to observation and prediction and the
proportional normalization, for the additive and proportional residual
models; for the eight other residual-model variants the contribution
is the constant one. -/
theorem c5_amended_resk (E : Ext) (resMod : ℕ) (propT : ℤ) (lambda : ℚ) (yj : ℤ)
    (low hi : ℚ) (ys fs : List ℚ) :
    (resMod ≤ rmProp →
      reskEndpoint E resMod propT lambda yj low hi ys fs
        = reskSpec E resMod propT lambda yj low hi ys fs)
  ∧ (rmProp < resMod →
      reskEndpoint E resMod propT lambda yj low hi ys fs = 1) := by
  constructor
  · intro h
    unfold reskEndpoint reskSpec clipInto
    simp only [h, if_true, if_pos]
    by_cases h1 : dotSelf
        ((ys.zip fs).map
          (fun q => residTransformed E resMod propT lambda yj low hi q.1 q.2)) > xup
    · have h2 : ¬ dotSelf
          ((ys.zip fs).map
            (fun q => residTransformed E resMod propT lambda yj low hi q.1 q.2)) < xlo :=
        not_lt.mpr (le_of_lt (lt_trans xlo_lt_xup h1))
      simp [h1, h2]
    · by_cases h2 : dotSelf
          ((ys.zip fs).map
            (fun q => residTransformed E resMod propT lambda yj low hi q.1 q.2)) < xlo <;>
        simp [h1, h2]
  · intro h
    unfold reskEndpoint
    simp [Nat.not_le.mpr h]

/-- Witness for claim C5 (amended): the additive model contribution
matches the spec formula and the power model contribution is one, at a
concrete single observation. -/
theorem c5_amended_resk_witness :
    reskEndpoint extVal rmAdd 0 0 2 0 1 [3] [0] = reskSpec extVal rmAdd 0 0 2 0 1 [3] [0]
  ∧ reskEndpoint extVal rmPow 0 0 2 0 1 [3] [0] = 1 :=
  ⟨(c5_amended_resk extVal rmAdd 0 0 2 0 1 [3] [0]).1 (by decide),
   (c5_amended_resk extVal rmPow 0 0 2 0 1 [3] [0]).2 (by decide)⟩

/-- Counterexample to claim C2: the additive plus proportional
objective of the source uses the signed prediction in the sum
combination, not its absolute value, so at the prediction minus one
the source objective and the spec-worded objective differ. -/
theorem c2_counterexample :
    obj extVal envNeg [2, 1] ≠ objSpecAbsAddProp extVal envNeg [2, 1] := by
  norm_num [obj, objSpecAbsAddProp, objTermA, gAddProp, takeParam, clipG, handleF,
    envNeg, extVal, xlo, xup]

/-- Claim C2 (amended): each residual-model objective returns the sum
over observations of the squared standardized residual plus twice the
log of the clipped variant-specific residual scale, where the scale is
the one the source computes: the prediction enters with its sign in
the sum combinations, the additive plus power quadrature of objC
carries no square root, and objF and objG replace an exactly zero
scale by one before clipping. -/
theorem c2_amended_objectives (E : Ext) (env : ObjEnv) (ab : List ℚ) :
    obj E env ab = objSumA E env ab
  ∧ objC E env ab = objSumC E env ab
  ∧ objD E env ab = objSumD E env ab
  ∧ objE E env ab = objSumE E env ab
  ∧ objF E env ab = objSumF E env ab
  ∧ objG E env ab = objSumG E env ab
  ∧ objH E env ab = objSumH E env ab
  ∧ objI E env ab = objSumI E env ab := by
  refine ⟨?_, ?_, ?_, ?_, ?_, ?_, ?_, ?_⟩ <;>
    simp only [obj, objSumA, objC, objSumC, objD, objSumD, objE, objSumE,
      objF, objSumF, objG, objSumG, objH, objSumH, objI, objSumI] <;>
    exact foldl_term_sum _ _

/-- Claim C6 at its failing input: in the rmPow case of saem.cpp, in
an iteration at or below the residual burn-in with step size one and
bres starting at zero, a minimizer result of two and three moves bres
to their product six, where the blend toward the squared first
coordinate described by the claim and by the surrounding code would
give four. -/
theorem c6_rmPow_blend_failing_input :
    (stepPow extVal ⟨0, 0, 1, 2, 2⟩ ⟨0, fun _ => 0, fun _ => 0⟩ ⟨0, 0, 0, 0⟩
      (fun _ => [2, 3])).st.bres = 6 ∧ (6 : ℚ) ≠ 2 * 2 := by
  constructor
  · norm_num [stepPow]
  · norm_num

/-- Counterexample to claim C8: with the unsupported distribution
identifier four the exported fit still returns an assembled result to
the caller, built from the initial state. -/
theorem c8_counterexample :
    ¬ (∀ o : ℕ, saemFitExportModel 4 5 (fun _ n => n + 1) (fun n => n) 0 ≠ Except.ok o) := by
  intro h
  exact h 0 rfl

/-- Claim C8 (amended): on an unsupported distribution identifier the
engine prints the message and stops before any iteration body runs,
leaving the state untouched, but the exported entry point still
assembles and returns the result record from the initial state rather
than raising an error. -/
theorem c8_amended_invalid_dist {St Out : Type} (dist : ℤ) (niter fuel k : ℕ)
    (body : ℕ → St → St) (build : St → Out) (s0 : St)
    (h : distOK dist = false) :
    (fuel ≠ 0 → saemLoop dist body fuel k s0 = (s0, some "unknown distribution"))
  ∧ saemFitExportModel dist niter body build s0 = Except.ok (build s0) := by
  constructor
  · intro hf
    cases fuel with
    | zero => exact absurd rfl hf
    | succ nn => simp [saemLoop, h]
  · cases niter with
    | zero => rfl
    | succ nn => simp [saemFitExportModel, saemLoop, h]

/-- Witness for claim C8 (amended): distribution identifier five stops
the loop at once and the export returns the built initial state. -/
theorem c8_amended_invalid_dist_witness :
    saemLoop (5 : ℤ) (fun _ n => n + 1) 3 0 (7 : ℕ) = (7, some "unknown distribution")
  ∧ saemFitExportModel (5 : ℤ) 3 (fun _ n => n + 1) (fun n => n + 100) 7
      = Except.ok 107 := by
  have h := c8_amended_invalid_dist 5 3 3 0 (fun _ n => n + 1) (fun n => n + 100) 7 rfl
  exact ⟨h.1 (by decide), h.2⟩

/-- Claim C7: past the residual burn-in, every residual parameter slot
whose fixed flag is set is assigned its externally supplied value, the
start vector passed to the minimizer holds exactly the estimates of
the non-fixed slots while the fixed value enters through the fixed
mask and value arrays, and the slot is untouched by the
post-minimization blend whatever the minimizer returns; stated for all
ten residual-model cases. -/
theorem c7_fixed_resid_held (E : Ext) (c : ResBase) (fl : ResFlags) (st : ResState)
    (opt : List ℚ → List ℚ) (sig2 : ℚ) (hk : c.nb_fixResid < c.kiter) :
    ((fl.resFixed fl.offsetR = 1 →
        (stepAdd E c fl st sig2).ares = fl.resValue fl.offsetR)
  ∧ (fl.resFixed fl.offsetR = 1 →
        (stepProp E c fl st sig2).bres = fl.resValue fl.offsetR))
  ∧ ((fl.resFixed fl.offsetR = 1 →
        (stepAddProp E c fl st opt).st.ares = fl.resValue fl.offsetR
      ∧ (stepAddProp E c fl st opt).fI 0 = 1
      ∧ (stepAddProp E c fl st opt).fV 0 = E.sqrt |fl.resValue fl.offsetR|)
  ∧ (fl.resFixed (fl.offsetR + 1) = 1 →
        (stepAddProp E c fl st opt).st.bres = fl.resValue (fl.offsetR + 1)
      ∧ (stepAddProp E c fl st opt).fI 1 = 1
      ∧ (stepAddProp E c fl st opt).fV 1 = E.sqrt |fl.resValue (fl.offsetR + 1)|)
  ∧ (stepAddProp E c fl st opt).start
      = (if fl.resFixed fl.offsetR = 1 then [] else [E.sqrt |st.ares|])
        ++ (if fl.resFixed (fl.offsetR + 1) = 1 then [] else [E.sqrt |st.bres|]))
  ∧ ((fl.resFixed fl.offsetR = 1 →
        (stepAddPow E c fl st opt).st.ares = fl.resValue fl.offsetR
      ∧ (stepAddPow E c fl st opt).fI 0 = 1
      ∧ (stepAddPow E c fl st opt).fV 0 = E.sqrt |fl.resValue fl.offsetR|)
  ∧ (fl.resFixed (fl.offsetR + 1) = 1 →
        (stepAddPow E c fl st opt).st.bres = fl.resValue (fl.offsetR + 1)
      ∧ (stepAddPow E c fl st opt).fI 1 = 1
      ∧ (stepAddPow E c fl st opt).fV 1 = E.sqrt |fl.resValue (fl.offsetR + 1)|)
  ∧ (fl.resFixed (fl.offsetR + 2) = 1 →
        (stepAddPow E c fl st opt).st.cres = fl.resValue (fl.offsetR + 2)
      ∧ (stepAddPow E c fl st opt).fI 2 = 1
      ∧ (stepAddPow E c fl st opt).fV 2 = toPowEst E c.powR (fl.resValue (fl.offsetR + 2)))
  ∧ (stepAddPow E c fl st opt).start
      = (if fl.resFixed fl.offsetR = 1 then [] else [E.sqrt |st.ares|])
        ++ (if fl.resFixed (fl.offsetR + 1) = 1 then [] else [E.sqrt |st.bres|])
        ++ (if fl.resFixed (fl.offsetR + 2) = 1 then [] else [toPowEst E c.powR st.cres]))
  ∧ ((fl.resFixed fl.offsetR = 1 →
        (stepPow E c fl st opt).st.bres = fl.resValue fl.offsetR
      ∧ (stepPow E c fl st opt).fI 0 = 1
      ∧ (stepPow E c fl st opt).fV 0 = E.sqrt |fl.resValue fl.offsetR|)
  ∧ (fl.resFixed (fl.offsetR + 1) = 1 →
        (stepPow E c fl st opt).st.cres = fl.resValue (fl.offsetR + 1)
      ∧ (stepPow E c fl st opt).fI 1 = 1
      ∧ (stepPow E c fl st opt).fV 1 = toPowEst E c.powR (fl.resValue (fl.offsetR + 1)))
  ∧ (stepPow E c fl st opt).start
      = (if fl.resFixed fl.offsetR = 1 then [] else [E.sqrt |st.bres|])
        ++ (if fl.resFixed (fl.offsetR + 1) = 1 then [] else [toPowEst E c.powR st.cres]))
  ∧ ((fl.resFixed fl.offsetR = 1 →
        (stepAddLam E c fl st opt).st.ares = fl.resValue fl.offsetR
      ∧ (stepAddLam E c fl st opt).fI 0 = 1
      ∧ (stepAddLam E c fl st opt).fV 0 = E.sqrt |fl.resValue fl.offsetR|)
  ∧ (fl.resFixed (fl.offsetR + 1) = 1 →
        (stepAddLam E c fl st opt).st.lres = fl.resValue (fl.offsetR + 1)
      ∧ (stepAddLam E c fl st opt).fI 1 = 1
      ∧ (stepAddLam E c fl st opt).fV 1 = toLambdaEst E c.lambdaR (fl.resValue (fl.offsetR + 1)))
  ∧ (stepAddLam E c fl st opt).start
      = (if fl.resFixed fl.offsetR = 1 then [] else [E.sqrt |st.ares|])
        ++ (if fl.resFixed (fl.offsetR + 1) = 1 then [] else [toLambdaEst E c.lambdaR st.lres]))
  ∧ ((fl.resFixed fl.offsetR = 1 →
        (stepPropLam E c fl st opt).st.bres = fl.resValue fl.offsetR
      ∧ (stepPropLam E c fl st opt).fI 0 = 1
      ∧ (stepPropLam E c fl st opt).fV 0 = E.sqrt |fl.resValue fl.offsetR|)
  ∧ (fl.resFixed (fl.offsetR + 1) = 1 →
        (stepPropLam E c fl st opt).st.lres = fl.resValue (fl.offsetR + 1)
      ∧ (stepPropLam E c fl st opt).fI 1 = 1
      ∧ (stepPropLam E c fl st opt).fV 1 = toLambdaEst E c.lambdaR (fl.resValue (fl.offsetR + 1)))
  ∧ (stepPropLam E c fl st opt).start
      = (if fl.resFixed fl.offsetR = 1 then [] else [E.sqrt |st.bres|])
        ++ (if fl.resFixed (fl.offsetR + 1) = 1 then [] else [toLambdaEst E c.lambdaR st.lres]))
  ∧ ((fl.resFixed fl.offsetR = 1 →
        (stepPowLam E c fl st opt).st.bres = fl.resValue fl.offsetR
      ∧ (stepPowLam E c fl st opt).fI 0 = 1
      ∧ (stepPowLam E c fl st opt).fV 0 = E.sqrt |fl.resValue fl.offsetR|)
  ∧ (fl.resFixed (fl.offsetR + 1) = 1 →
        (stepPowLam E c fl st opt).st.cres = fl.resValue (fl.offsetR + 1)
      ∧ (stepPowLam E c fl st opt).fI 1 = 1
      ∧ (stepPowLam E c fl st opt).fV 1 = toPowEst E c.powR (fl.resValue (fl.offsetR + 1)))
  ∧ (fl.resFixed (fl.offsetR + 2) = 1 →
        (stepPowLam E c fl st opt).st.lres = fl.resValue (fl.offsetR + 2)
      ∧ (stepPowLam E c fl st opt).fI 2 = 1
      ∧ (stepPowLam E c fl st opt).fV 2 = toLambdaEst E c.lambdaR (fl.resValue (fl.offsetR + 2)))
  ∧ (stepPowLam E c fl st opt).start
      = (if fl.resFixed fl.offsetR = 1 then [] else [E.sqrt |st.bres|])
        ++ (if fl.resFixed (fl.offsetR + 1) = 1 then [] else [toPowEst E c.powR st.cres])
        ++ (if fl.resFixed (fl.offsetR + 2) = 1 then [] else [toLambdaEst E c.lambdaR st.lres]))
  ∧ ((fl.resFixed fl.offsetR = 1 →
        (stepAddPropLam E c fl st opt).st.ares = fl.resValue fl.offsetR
      ∧ (stepAddPropLam E c fl st opt).fI 0 = 1
      ∧ (stepAddPropLam E c fl st opt).fV 0 = E.sqrt |fl.resValue fl.offsetR|)
  ∧ (fl.resFixed (fl.offsetR + 1) = 1 →
        (stepAddPropLam E c fl st opt).st.bres = fl.resValue (fl.offsetR + 1)
      ∧ (stepAddPropLam E c fl st opt).fI 1 = 1
      ∧ (stepAddPropLam E c fl st opt).fV 1 = E.sqrt |fl.resValue (fl.offsetR + 1)|)
  ∧ (fl.resFixed (fl.offsetR + 2) = 1 →
        (stepAddPropLam E c fl st opt).st.lres = fl.resValue (fl.offsetR + 2)
      ∧ (stepAddPropLam E c fl st opt).fI 2 = 1
      ∧ (stepAddPropLam E c fl st opt).fV 2 = toLambdaEst E c.lambdaR (fl.resValue (fl.offsetR + 2)))
  ∧ (stepAddPropLam E c fl st opt).start
      = (if fl.resFixed fl.offsetR = 1 then [] else [E.sqrt |st.ares|])
        ++ (if fl.resFixed (fl.offsetR + 1) = 1 then [] else [E.sqrt |st.bres|])
        ++ (if fl.resFixed (fl.offsetR + 2) = 1 then [] else [toLambdaEst E c.lambdaR st.lres]))
  ∧ ((fl.resFixed fl.offsetR = 1 →
        (stepAddPowLam E c fl st opt).st.ares = fl.resValue fl.offsetR
      ∧ (stepAddPowLam E c fl st opt).fI 0 = 1
      ∧ (stepAddPowLam E c fl st opt).fV 0 = E.sqrt |fl.resValue fl.offsetR|)
  ∧ (fl.resFixed (fl.offsetR + 1) = 1 →
        (stepAddPowLam E c fl st opt).st.bres = fl.resValue (fl.offsetR + 1)
      ∧ (stepAddPowLam E c fl st opt).fI 1 = 1
      ∧ (stepAddPowLam E c fl st opt).fV 1 = E.sqrt |fl.resValue (fl.offsetR + 1)|)
  ∧ (fl.resFixed (fl.offsetR + 2) = 1 →
        (stepAddPowLam E c fl st opt).st.cres = fl.resValue (fl.offsetR + 2)
      ∧ (stepAddPowLam E c fl st opt).fI 2 = 1
      ∧ (stepAddPowLam E c fl st opt).fV 2 = toPowEst E c.powR (fl.resValue (fl.offsetR + 2)))
  ∧ (fl.resFixed (fl.offsetR + 3) = 1 →
        (stepAddPowLam E c fl st opt).st.lres = fl.resValue (fl.offsetR + 3)
      ∧ (stepAddPowLam E c fl st opt).fI 3 = 1
      ∧ (stepAddPowLam E c fl st opt).fV 3 = toLambdaEst E c.lambdaR (fl.resValue (fl.offsetR + 3)))
  ∧ (stepAddPowLam E c fl st opt).start
      = (if fl.resFixed fl.offsetR = 1 then [] else [E.sqrt |st.ares|])
        ++ (if fl.resFixed (fl.offsetR + 1) = 1 then [] else [E.sqrt |st.bres|])
        ++ (if fl.resFixed (fl.offsetR + 2) = 1 then [] else [toPowEst E c.powR st.cres])
        ++ (if fl.resFixed (fl.offsetR + 3) = 1 then [] else [toLambdaEst E c.lambdaR st.lres])) := by
  refine ⟨⟨fun h0 => ?_, fun h0 => ?_⟩,
    ⟨fun h0 => ?_, fun h1 => ?_, ?_⟩,
    ⟨fun h0 => ?_, fun h1 => ?_, fun h2 => ?_, ?_⟩,
    ⟨fun h0 => ?_, fun h1 => ?_, ?_⟩,
    ⟨fun h0 => ?_, fun h1 => ?_, ?_⟩,
    ⟨fun h0 => ?_, fun h1 => ?_, ?_⟩,
    ⟨fun h0 => ?_, fun h1 => ?_, fun h2 => ?_, ?_⟩,
    ⟨fun h0 => ?_, fun h1 => ?_, fun h2 => ?_, ?_⟩,
    ⟨fun h0 => ?_, fun h1 => ?_, fun h2 => ?_, fun h3 => ?_, ?_⟩⟩
  · simp [stepAdd, h0, hk]
  · simp [stepProp, h0, hk]
  · simp [stepAddProp, blendSlot, h0, hk]
  · simp [stepAddProp, blendSlot, h1, hk]
  · by_cases h0 : fl.resFixed fl.offsetR = 1 <;>
      by_cases h1 : fl.resFixed (fl.offsetR + 1) = 1 <;>
      simp [stepAddProp, hk, h0, h1]
  · simp [stepAddPow, blendSlot, h0, hk]
  · simp [stepAddPow, blendSlot, h1, hk]
  · simp [stepAddPow, blendSlot, h2, hk]
  · by_cases h0 : fl.resFixed fl.offsetR = 1 <;>
      by_cases h1 : fl.resFixed (fl.offsetR + 1) = 1 <;>
      by_cases h2 : fl.resFixed (fl.offsetR + 2) = 1 <;>
      simp [stepAddPow, hk, h0, h1, h2]
  · simp [stepPow, blendSlot, h0, hk]
  · simp [stepPow, blendSlot, h1, hk]
  · by_cases h0 : fl.resFixed fl.offsetR = 1 <;>
      by_cases h1 : fl.resFixed (fl.offsetR + 1) = 1 <;>
      simp [stepPow, hk, h0, h1]
  · simp [stepAddLam, blendSlot, h0, hk]
  · simp [stepAddLam, blendSlot, h1, hk]
  · by_cases h0 : fl.resFixed fl.offsetR = 1 <;>
      by_cases h1 : fl.resFixed (fl.offsetR + 1) = 1 <;>
      simp [stepAddLam, hk, h0, h1]
  · simp [stepPropLam, blendSlot, h0, hk]
  · simp [stepPropLam, blendSlot, h1, hk]
  · by_cases h0 : fl.resFixed fl.offsetR = 1 <;>
      by_cases h1 : fl.resFixed (fl.offsetR + 1) = 1 <;>
      simp [stepPropLam, hk, h0, h1]
  · simp [stepPowLam, blendSlot, h0, hk]
  · simp [stepPowLam, blendSlot, h1, hk]
  · simp [stepPowLam, blendSlot, h2, hk]
  · by_cases h0 : fl.resFixed fl.offsetR = 1 <;>
      by_cases h1 : fl.resFixed (fl.offsetR + 1) = 1 <;>
      by_cases h2 : fl.resFixed (fl.offsetR + 2) = 1 <;>
      simp [stepPowLam, hk, h0, h1, h2]
  · simp [stepAddPropLam, blendSlot, h0, hk]
  · simp [stepAddPropLam, blendSlot, h1, hk]
  · simp [stepAddPropLam, blendSlot, h2, hk]
  · by_cases h0 : fl.resFixed fl.offsetR = 1 <;>
      by_cases h1 : fl.resFixed (fl.offsetR + 1) = 1 <;>
      by_cases h2 : fl.resFixed (fl.offsetR + 2) = 1 <;>
      simp [stepAddPropLam, hk, h0, h1, h2]
  · simp [stepAddPowLam, blendSlot, h0, hk]
  · simp [stepAddPowLam, blendSlot, h1, hk]
  · simp [stepAddPowLam, blendSlot, h2, hk]
  · simp [stepAddPowLam, blendSlot, h3, hk]
  · by_cases h0 : fl.resFixed fl.offsetR = 1 <;>
      by_cases h1 : fl.resFixed (fl.offsetR + 1) = 1 <;>
      by_cases h2 : fl.resFixed (fl.offsetR + 2) = 1 <;>
      by_cases h3 : fl.resFixed (fl.offsetR + 3) = 1 <;>
      simp [stepAddPowLam, hk, h0, h1, h2, h3]

/-- Witness for claim C7: with the first slot fixed at value nine past
the burn-in, the additive plus proportional case holds ares at nine
whatever the minimizer returns, and its start vector holds only the
bres estimate. -/
theorem c7_fixed_resid_held_witness :
    (stepAddProp extVal ⟨5, 2, 1, 2, 2⟩ ⟨0, fun q => if q = 0 then 1 else 0, fun _ => 9⟩
      ⟨0, 0, 0, 0⟩ (fun _ => [4, 4])).st.ares = 9
  ∧ (stepAddProp extVal ⟨5, 2, 1, 2, 2⟩ ⟨0, fun q => if q = 0 then 1 else 0, fun _ => 9⟩
      ⟨0, 0, 0, 0⟩ (fun _ => [4, 4])).start = [extVal.sqrt |(0 : ℚ)|] := by
  have h := c7_fixed_resid_held extVal ⟨5, 2, 1, 2, 2⟩
    ⟨0, fun q => if q = 0 then 1 else 0, fun _ => 9⟩ ⟨0, 0, 0, 0⟩
    (fun _ => [4, 4]) 0 (by norm_num)
  refine ⟨(h.2.1.1 (by norm_num)).1, ?_⟩
  have hs := h.2.1.2.2
  simpa using hs

/-- Claim C9: at or below the residual burn-in the fixed flags and
values are ignored: every residual update is unchanged when the fixed
configuration is swapped for any other, and the start vector handed to
the minimizer holds the estimates of all slots of the variant. -/
theorem c9_preburn_flags_ignored (E : Ext) (c : ResBase) (fl fl2 : ResFlags)
    (st : ResState) (opt : List ℚ → List ℚ) (hk : c.kiter ≤ c.nb_fixResid) :
    (stepAddProp E c fl st opt = stepAddProp E c fl2 st opt
      ∧ (stepAddProp E c fl st opt).start = [E.sqrt |st.ares|, E.sqrt |st.bres|])
  ∧ (stepAddPow E c fl st opt = stepAddPow E c fl2 st opt
      ∧ (stepAddPow E c fl st opt).start
          = [E.sqrt |st.ares|, E.sqrt |st.bres|, toPowEst E c.powR st.cres])
  ∧ (stepPow E c fl st opt = stepPow E c fl2 st opt
      ∧ (stepPow E c fl st opt).start = [E.sqrt |st.bres|, toPowEst E c.powR st.cres])
  ∧ (stepAddLam E c fl st opt = stepAddLam E c fl2 st opt
      ∧ (stepAddLam E c fl st opt).start
          = [E.sqrt |st.ares|, toLambdaEst E c.lambdaR st.lres])
  ∧ (stepPropLam E c fl st opt = stepPropLam E c fl2 st opt
      ∧ (stepPropLam E c fl st opt).start
          = [E.sqrt |st.bres|, toLambdaEst E c.lambdaR st.lres])
  ∧ (stepPowLam E c fl st opt = stepPowLam E c fl2 st opt
      ∧ (stepPowLam E c fl st opt).start
          = [E.sqrt |st.bres|, toPowEst E c.powR st.cres, toLambdaEst E c.lambdaR st.lres])
  ∧ (stepAddPropLam E c fl st opt = stepAddPropLam E c fl2 st opt
      ∧ (stepAddPropLam E c fl st opt).start
          = [E.sqrt |st.ares|, E.sqrt |st.bres|, toLambdaEst E c.lambdaR st.lres])
  ∧ (stepAddPowLam E c fl st opt = stepAddPowLam E c fl2 st opt
      ∧ (stepAddPowLam E c fl st opt).start
          = [E.sqrt |st.ares|, E.sqrt |st.bres|, toPowEst E c.powR st.cres,
             toLambdaEst E c.lambdaR st.lres]) := by
  have hk2 : ¬ c.nb_fixResid < c.kiter := Nat.not_lt.mpr hk
  refine ⟨⟨?_, ?_⟩, ⟨?_, ?_⟩, ⟨?_, ?_⟩, ⟨?_, ?_⟩, ⟨?_, ?_⟩, ⟨?_, ?_⟩, ⟨?_, ?_⟩, ⟨?_, ?_⟩⟩ <;>
    simp [stepAddProp, stepAddPow, stepPow, stepAddLam, stepPropLam, stepPowLam,
      stepAddPropLam, stepAddPowLam, hk2]

/-- Witness for claim C9: below the burn-in a fully fixed
configuration and an all-free one give the same additive plus
proportional update, and the start vector carries both estimates. -/
theorem c9_preburn_flags_ignored_witness :
    stepAddProp extVal ⟨1, 2, 1, 2, 2⟩ ⟨0, fun _ => 1, fun _ => 9⟩ ⟨0, 0, 0, 0⟩
        (fun _ => [4, 4])
      = stepAddProp extVal ⟨1, 2, 1, 2, 2⟩ ⟨0, fun _ => 0, fun _ => 0⟩ ⟨0, 0, 0, 0⟩
        (fun _ => [4, 4])
  ∧ (stepAddProp extVal ⟨1, 2, 1, 2, 2⟩ ⟨0, fun _ => 1, fun _ => 9⟩ ⟨0, 0, 0, 0⟩
        (fun _ => [4, 4])).start
      = [extVal.sqrt |(0 : ℚ)|, extVal.sqrt |(0 : ℚ)|] :=
  (c9_preburn_flags_ignored extVal ⟨1, 2, 1, 2, 2⟩ ⟨0, fun _ => 1, fun _ => 9⟩
    ⟨0, fun _ => 0, fun _ => 0⟩ ⟨0, 0, 0, 0⟩ (fun _ => [4, 4]) (by norm_num)).1

end Saem
